import Mathlib

/-!
Verification of the health-prediction platform's risk-prediction engine
(`healthpredict/predictor/ml_models.py`) and OCR extraction service
(`healthpredict/predictor/services/ocr_service.py`).

Python dictionaries of mixed-typed values are embedded as association
lists of `PyVal`; operations that can raise a Python exception return
`Except Unit`.  Numbers are embedded as exact rationals.
-/

attribute [local semireducible] Rat.mul Rat.inv Rat.add Rat.sub Rat.ofScientific

/-- A Python value as it can appear in an assessment-data dictionary:
a number (int or float), a string, a boolean, a dict of booleans
(family medical history), or `None`. -/
inductive PyVal where
  | num (q : ℚ)
  | str (s : String)
  | bool (b : Bool)
  | dict (entries : List (String × Bool))
  | null
deriving DecidableEq

/-- A Python dict with string keys: the assessment-data payload. -/
def Record : Type := List (String × PyVal)

instance : DecidableEq Record :=
  inferInstanceAs (DecidableEq (List (String × PyVal)))

instance : Membership (String × PyVal) Record :=
  inferInstanceAs (Membership (String × PyVal) (List (String × PyVal)))

deriving instance DecidableEq for Except

/-- `d.get(k, default)` on a Python dict. -/
def Record.getD (r : Record) (k : String) (d : PyVal) : PyVal :=
  (List.lookup k r).getD d

/-- `d.get(k)` on a Python dict (default `None`). -/
def Record.getN (r : Record) (k : String) : PyVal :=
  (List.lookup k r).getD PyVal.null

/-- Value of a list of decimal digit characters. -/
def digitsToNat (l : List Char) : ℕ :=
  l.foldl (fun a c => a * 10 + (c.toNat - 48)) 0

/-- Fractional part denoted by digit characters after a decimal point. -/
def fracVal (l : List Char) : ℚ :=
  (digitsToNat l : ℚ) / ((10 : ℚ) ^ l.length)

/-- Strip leading and trailing whitespace from a character list
(Python `str.strip()`). -/
def stripChars (l : List Char) : List Char :=
  ((l.dropWhile Char.isWhitespace).reverse.dropWhile Char.isWhitespace).reverse

/-- Python `str.strip()`. -/
def pyStrip (s : String) : String :=
  String.mk (stripChars s.toList)

/-- Python `float(s)` on a decimal literal: optional surrounding
whitespace, optional sign, digits with an optional fractional part.
Returns `none` when the parse fails (Python `ValueError`). -/
def pyFloat (s : String) : Option ℚ :=
  let cs := stripChars s.toList
  let sgn : ℚ :=
    match cs with
    | '-' :: _ => -1
    | _ => 1
  let cs2 :=
    match cs with
    | '-' :: t => t
    | '+' :: t => t
    | _ => cs
  let ip := cs2.takeWhile Char.isDigit
  let rest := cs2.dropWhile Char.isDigit
  match rest with
  | [] =>
      if ip.isEmpty then Option.none
      else Option.some (sgn * (digitsToNat ip : ℚ))
  | '.' :: fr =>
      if fr.all Char.isDigit && (!ip.isEmpty || !fr.isEmpty) then
        Option.some (sgn * ((digitsToNat ip : ℚ) + fracVal fr))
      else Option.none
  | _ => Option.none

/-- Python `int(s)` on an OCR capture: succeeds exactly on nonempty
all-digit strings (captures are never signed). -/
def pyInt (s : String) : Option ℚ :=
  let cs := s.toList
  if !cs.isEmpty && cs.all Char.isDigit then Option.some (digitsToNat cs)
  else Option.none

/-- Python truthiness of a `PyVal`. -/
def truthy : PyVal → Bool
  | .num q => decide (q ≠ 0)
  | .str s => !s.isEmpty
  | .bool b => b
  | .dict l => !l.isEmpty
  | .null => false

/-- `HealthPredictor.numeric_features`: the sixteen numeric feature
names, in declaration order. -/
def numericFeatures : List String :=
  [r"age", r"bmi", r"systolic_bp", r"diastolic_bp", r"heart_rate",
   r"temperature", r"total_cholesterol", r"hdl_cholesterol",
   r"ldl_cholesterol", r"triglycerides", r"fasting_glucose", r"hba1c",
   r"creatinine", r"hemoglobin", r"stress_level", r"sleep_hours"]

/-- `HealthPredictor.binary_features`: the nine binary symptom flags. -/
def binaryFeatures : List String :=
  [r"chest_pain", r"shortness_of_breath", r"fatigue",
   r"frequent_urination", r"excessive_thirst",
   r"unexplained_weight_loss", r"blurred_vision", r"dizziness",
   r"palpitations"]

/-- Ordinal table for `gender`. -/
def genderMap : List (String × ℚ) :=
  [(r"male", 0), (r"female", 1), (r"other", 2)]

/-- Ordinal table for `smoking_status`. -/
def smokingMap : List (String × ℚ) :=
  [(r"never", 0), (r"former", 1), (r"current", 2)]

/-- Ordinal table for `alcohol_consumption`. -/
def alcoholMap : List (String × ℚ) :=
  [(r"never", 0), (r"occasional", 1), (r"moderate", 2), (r"heavy", 3)]

/-- Ordinal table for `exercise_level`. -/
def exerciseMap : List (String × ℚ) :=
  [(r"sedentary", 0), (r"light", 1), (r"moderate", 2), (r"vigorous", 3)]

/-- String table for `family_medical_history` (backward compatibility). -/
def famMap : List (String × ℚ) :=
  [(r"none", 0), (r"heart_disease", 1), (r"diabetes", 2), (r"cancer", 3),
   (r"multiple", 4)]

/-- A numeric slot of `prepare_features`: a string value is parsed with
`float` and degrades to `0` on `ValueError`; the result is then passed
through `float(value)`, which succeeds on numbers and booleans and
raises `TypeError` on dicts and `None`. -/
def numericSlot (v : PyVal) : Except Unit ℚ :=
  match v with
  | .str s => .ok ((pyFloat s).getD 0)
  | .num q => .ok q
  | .bool b => .ok (if b then 1 else 0)
  | .dict _ => .error ()
  | .null => .error ()

/-- A simple categorical slot: `mapping.get(value, 0)`.  Looking up an
unhashable value (a dict) raises `TypeError`; any other non-key value
maps to `0`. -/
def catSlot (mapping : List (String × ℚ)) (v : PyVal) : Except Unit ℚ :=
  match v with
  | .dict _ => .error ()
  | .str s => .ok ((mapping.lookup s).getD 0)
  | _ => .ok 0

/-- The special-cased `family_medical_history` slot: a dict of booleans
collapses by its count of true flags (0 to none, 1 to the matching
condition ordinal, 2 or more to multiple); a string goes through
`famMap`; anything else encodes as `0`.  Never raises. -/
def familySlot (v : PyVal) : ℚ :=
  match v with
  | .dict entries =>
      let n := entries.countP (fun e => e.2)
      if n = 0 then 0
      else if n = 1 then
        if (entries.lookup (r"heart_disease")).getD false then 1
        else if (entries.lookup (r"diabetes")).getD false then 2
        else if (entries.lookup (r"cancer")).getD false then 3
        else 1
      else 4
  | .str s => (famMap.lookup s).getD 0
  | _ => 0

/-- A binary slot: truthy coercion to `1` or `0`. -/
def binarySlot (v : PyVal) : ℚ :=
  if truthy v then 1 else 0

/-- The numeric-feature loop of `prepare_features`. -/
def numSlots (fields : List String) (r : Record) : Except Unit (List ℚ) :=
  match fields with
  | [] => .ok []
  | f :: rest => do
      let v ← numericSlot (r.getD f (.num 0))
      let tail ← numSlots rest r
      .ok (v :: tail)

/-- `HealthPredictor.prepare_features`: sixteen numeric slots, then the
five categorical slots (gender, smoking, alcohol, exercise, family
history), then the nine binary symptom flags. -/
def prepareFeatures (r : Record) : Except Unit (List ℚ) := do
  let nums ← numSlots numericFeatures r
  let g ← catSlot genderMap (r.getD (r"gender") (.str (r"none")))
  let sm ← catSlot smokingMap (r.getD (r"smoking_status") (.str (r"none")))
  let al ← catSlot alcoholMap (r.getD (r"alcohol_consumption") (.str (r"none")))
  let ex ← catSlot exerciseMap (r.getD (r"exercise_level") (.str (r"none")))
  let fam := familySlot (r.getD (r"family_medical_history") (.dict []))
  let bins := binaryFeatures.map (fun f => binarySlot (r.getD f (.bool false)))
  .ok (nums ++ [g, sm, al, ex, fam] ++ bins)

/-- Python `value > c` for a dict value against a numeric constant:
numbers and booleans compare, everything else raises `TypeError`. -/
def pyGT (v : PyVal) (c : ℚ) : Except Unit Bool :=
  match v with
  | .num q => .ok (decide (c < q))
  | .bool b => .ok (decide (c < (if b then (1 : ℚ) else 0)))
  | _ => .error ()

/-- Python `value == s` for a string constant: only equal strings
compare equal; never raises. -/
def pyEqStr (v : PyVal) (s : String) : Bool :=
  match v with
  | .str t => t == s
  | _ => false

/-- Heart-disease age points: over 65 gives 15, over 45 gives 8. -/
def hAge (d : Record) : Except Unit ℚ := do
  if (← pyGT (d.getD (r"age") (.num 0)) 65) then .ok 15
  else if (← pyGT (d.getD (r"age") (.num 0)) 45) then .ok 8
  else .ok 0

/-- Heart-disease blood-pressure points, with Python `or`
short-circuiting: systolic over 140 or diastolic over 90 gives 20,
else systolic over 130 or diastolic over 80 gives 10. -/
def hBP (d : Record) : Except Unit ℚ := do
  if (← pyGT (d.getD (r"systolic_bp") (.num 0)) 140) then .ok 20
  else if (← pyGT (d.getD (r"diastolic_bp") (.num 0)) 90) then .ok 20
  else if (← pyGT (d.getD (r"systolic_bp") (.num 0)) 130) then .ok 10
  else if (← pyGT (d.getD (r"diastolic_bp") (.num 0)) 80) then .ok 10
  else .ok 0

/-- Heart-disease cholesterol points: over 240 gives 15, over 200
gives 8. -/
def hChol (d : Record) : Except Unit ℚ := do
  if (← pyGT (d.getD (r"total_cholesterol") (.num 0)) 240) then .ok 15
  else if (← pyGT (d.getD (r"total_cholesterol") (.num 0)) 200) then .ok 8
  else .ok 0

/-- Heart-disease smoking points: current 25, former 10. -/
def hSmoke (d : Record) : ℚ :=
  if pyEqStr (d.getN (r"smoking_status")) (r"current") then 25
  else if pyEqStr (d.getN (r"smoking_status")) (r"former") then 10
  else 0

/-- Heart-disease symptom points: chest pain or shortness of breath
gives 20. -/
def hSymp (d : Record) : ℚ :=
  if truthy (d.getN (r"chest_pain")) || truthy (d.getN (r"shortness_of_breath"))
  then 20 else 0

/-- The accumulated heart-disease points of `_rule_based_prediction`. -/
def heartPoints (d : Record) : Except Unit ℚ := do
  let a ← hAge d
  let b ← hBP d
  let c ← hChol d
  .ok (a + b + c + hSmoke d + hSymp d)

/-- Diabetes glucose points: over 126 gives 30, over 100 gives 15. -/
def dGlucose (d : Record) : Except Unit ℚ := do
  if (← pyGT (d.getD (r"fasting_glucose") (.num 0)) 126) then .ok 30
  else if (← pyGT (d.getD (r"fasting_glucose") (.num 0)) 100) then .ok 15
  else .ok 0

/-- Diabetes HbA1c points: over 6.5 gives 25, over 5.7 gives 12. -/
def dHbA1c (d : Record) : Except Unit ℚ := do
  if (← pyGT (d.getD (r"hba1c") (.num 0)) 6.5) then .ok 25
  else if (← pyGT (d.getD (r"hba1c") (.num 0)) 5.7) then .ok 12
  else .ok 0

/-- Diabetes BMI points: over 30 gives 20, over 25 gives 10. -/
def dBmi (d : Record) : Except Unit ℚ := do
  if (← pyGT (d.getD (r"bmi") (.num 0)) 30) then .ok 20
  else if (← pyGT (d.getD (r"bmi") (.num 0)) 25) then .ok 10
  else .ok 0

/-- Diabetes symptom points: frequent urination or excessive thirst
gives 15. -/
def dSymp (d : Record) : ℚ :=
  if truthy (d.getN (r"frequent_urination")) || truthy (d.getN (r"excessive_thirst"))
  then 15 else 0

/-- The accumulated diabetes points of `_rule_based_prediction`. -/
def diabetesPoints (d : Record) : Except Unit ℚ := do
  let a ← dGlucose d
  let b ← dHbA1c d
  let c ← dBmi d
  .ok (a + b + c + dSymp d)

/-- Cancer age points: over 60 gives 15, over 40 gives 8. -/
def cAge (d : Record) : Except Unit ℚ := do
  if (← pyGT (d.getD (r"age") (.num 0)) 60) then .ok 15
  else if (← pyGT (d.getD (r"age") (.num 0)) 40) then .ok 8
  else .ok 0

/-- Cancer smoking points: current 35, former 15. -/
def cSmoke (d : Record) : ℚ :=
  if pyEqStr (d.getN (r"smoking_status")) (r"current") then 35
  else if pyEqStr (d.getN (r"smoking_status")) (r"former") then 15
  else 0

/-- Cancer family-history points: a family history equal to the string
`cancer` or `multiple` gives 20. -/
def cFam (d : Record) : ℚ :=
  if pyEqStr (d.getN (r"family_medical_history")) (r"cancer")
     || pyEqStr (d.getN (r"family_medical_history")) (r"multiple")
  then 20 else 0

/-- The accumulated cancer points of `_rule_based_prediction`. -/
def cancerPoints (d : Record) : Except Unit ℚ := do
  let a ← cAge d
  .ok (a + cSmoke d + cFam d)

/-- The risk block a prediction branch produces: four raw risk scores,
a confidence, and an optional method tag. -/
structure BaseResults where
  heart : ℚ
  diabetes : ℚ
  cancer : ℚ
  stroke : ℚ
  confidence : ℚ
  method : Option String
deriving DecidableEq

/-- `HealthPredictor._rule_based_prediction`: additive points per
condition, stroke derived as `max(heart*0.7, diabetes*0.6)` from the
raw accumulators, every score capped at 100, confidence 0.75, method
tagged rule-based. -/
def ruleBasedPrediction (d : Record) : Except Unit BaseResults := do
  let h ← heartPoints d
  let dia ← diabetesPoints d
  let c ← cancerPoints d
  let strokeRisk := max (h * 0.7) (dia * 0.6)
  .ok ⟨min 100 h, min 100 dia, min 100 c, min 100 strokeRisk, 0.75,
       Option.some (r"rule-based")⟩

/-- The four sigmoid head outputs of the neural model, each in [0,1];
the loaded artifact is embedded as an opaque pure function producing
them. -/
structure Preds where
  heart : ℚ
  diabetes : ℚ
  cancer : ℚ
  stroke : ℚ

/-- The model branch of `predict_health_risks`: each head output
scaled by 100, confidence 0.85, no method tag. -/
def modelResults (p : Preds) : BaseResults :=
  ⟨p.heart * 100, p.diabetes * 100, p.cancer * 100, p.stroke * 100, 0.85,
   Option.none⟩

/-- The predictor's loaded state: optional model artifact, optional
scaler, optional model version, and the clock value the host would
observe for `prediction_time_ms`. -/
structure Config where
  model : Option (List ℚ → Preds)
  scaler : Option (List ℚ → List ℚ)
  modelVersion : Option String
  now : ℚ

/-- `get_category` inside `_categorize_risks`: bands with boundaries
20, 50, 75. -/
def getCategory (q : ℚ) : String :=
  if q < 20 then r"low"
  else if q < 50 then r"moderate"
  else if q < 75 then r"high"
  else r"very_high"

/-- A recommendation record as built by `_generate_recommendations`. -/
structure Recommendation where
  category : String
  priority : String
  title : String
  description : String
  actions : List String
deriving DecidableEq

/-- The cardiovascular recommendation, at the given priority. -/
def cardioRec (p : String) : Recommendation :=
  ⟨r"Cardiovascular", p, r"Cardiovascular Health Assessment",
   r"Consider consulting a cardiologist for comprehensive heart health evaluation.",
   [r"Schedule cardiology consultation", r"Monitor blood pressure regularly",
    r"Consider stress testing"]⟩

/-- The diabetes recommendation, at the given priority. -/
def diabRec (p : String) : Recommendation :=
  ⟨r"Endocrine", p, r"Diabetes Risk Management",
   r"Lifestyle modifications and glucose monitoring are recommended.",
   [r"Consult endocrinologist", r"Implement diabetic diet",
    r"Monitor blood glucose levels"]⟩

/-- The weight-management recommendation. -/
def weightRec : Recommendation :=
  ⟨r"Lifestyle", r"medium", r"Weight Management",
   r"Achieving a healthy weight can reduce multiple health risks.",
   [r"Consult nutritionist", r"Increase physical activity",
    r"Monitor caloric intake"]⟩

/-- The smoking-cessation recommendation. -/
def smokingRec : Recommendation :=
  ⟨r"Lifestyle", r"high", r"Smoking Cessation",
   r"Quitting smoking significantly reduces cardiovascular and cancer risks.",
   [r"Join smoking cessation program", r"Consider nicotine replacement therapy",
    r"Seek behavioral support"]⟩

/-- `HealthPredictor._generate_recommendations`: condition
recommendations for heart disease and diabetes scores of at least 50
(priority high from 75), then the BMI and smoking lifestyle
recommendations.  The BMI comparison can raise on a malformed value. -/
def generateRecommendations (risks : BaseResults) (d : Record) :
    Except Unit (List Recommendation) := do
  let l1 := if 50 ≤ risks.heart then
      [cardioRec (if 75 ≤ risks.heart then r"high" else r"medium")] else []
  let l2 := if 50 ≤ risks.diabetes then
      [diabRec (if 75 ≤ risks.diabetes then r"high" else r"medium")] else []
  let bmiHigh ← pyGT (d.getD (r"bmi") (.num 0)) 25
  let l3 := if bmiHigh then [weightRec] else []
  let l4 := if pyEqStr (d.getN (r"smoking_status")) (r"current")
               || pyEqStr (d.getN (r"smoking_status")) (r"former")
            then [smokingRec] else []
  .ok (l1 ++ l2 ++ l3 ++ l4)

/-- Python numeric coercion for arithmetic: numbers and booleans are
usable, everything else raises `TypeError`. -/
def pyNum (v : PyVal) : Except Unit ℚ :=
  match v with
  | .num q => .ok q
  | .bool b => .ok (if b then 1 else 0)
  | _ => .error ()

/-- `HealthPredictor._calculate_feature_importance`: the simplified
age, blood-pressure, BMI and glucose contributions. -/
def calculateFeatureImportance (d : Record) :
    Except Unit (List (String × ℚ)) := do
  let age ← pyNum (d.getD (r"age") (.num 0))
  let iAge := min (age / 100) 1 * 100
  let sys ← pyNum (d.getD (r"systolic_bp") (.num 0))
  let iBP := min (sys / 180) 1 * 100
  let bmi ← pyNum (d.getD (r"bmi") (.num 0))
  let iBmi := if 25 < bmi then min ((bmi - 25) / 15) 1 * 100 else 0
  let glu ← pyNum (d.getD (r"fasting_glucose") (.num 0))
  let iGlu := if 100 < glu then min ((glu - 100) / 200) 1 * 100 else 0
  .ok [((r"age"), iAge), ((r"blood_pressure"), iBP), ((r"bmi"), iBmi),
       ((r"glucose"), iGlu)]

/-- The result envelope `predict_health_risks` hands to its caller.
A success envelope carries `error := false` (the Python dict simply
lacks the key); the error fallback sets it to `true`. -/
structure Envelope where
  heartRisk : ℚ
  diabetesRisk : ℚ
  cancerRisk : ℚ
  strokeRisk : ℚ
  heartCategory : String
  diabetesCategory : String
  cancerCategory : String
  strokeCategory : String
  confidence : ℚ
  method : Option String
  modelVersion : String
  timeMs : ℚ
  recommendations : List Recommendation
  featureImportance : List (String × ℚ)
  error : Bool
deriving DecidableEq

/-- `HealthPredictor._error_prediction`: the fixed safe-default
envelope. -/
def errorPrediction : Envelope :=
  ⟨25, 25, 25, 25, r"moderate", r"moderate", r"moderate", r"moderate",
   0.5, Option.some (r"error-fallback"), r"error-fallback", 0, [], [], true⟩

/-- The body of the `try` block of `predict_health_risks`: prepare
features, scale them when a scaler is loaded, run the model when one is
loaded (else the rule-based fallback), then attach latency, version,
categories, recommendations and feature importance. -/
def predictExc (cfg : Config) (d : Record) : Except Unit Envelope := do
  let features ← prepareFeatures d
  let features := match cfg.scaler with
    | Option.some s => s features
    | Option.none => features
  let base ← match cfg.model with
    | Option.some m => Except.ok (modelResults (m features))
    | Option.none => ruleBasedPrediction d
  let timeMs := cfg.now
  let version := cfg.modelVersion.getD (r"rule-based")
  let recs ← generateRecommendations base d
  let fi ← calculateFeatureImportance d
  .ok ⟨base.heart, base.diabetes, base.cancer, base.stroke,
       getCategory base.heart, getCategory base.diabetes,
       getCategory base.cancer, getCategory base.stroke,
       base.confidence, base.method, version, timeMs, recs, fi, false⟩

/-- `HealthPredictor.predict_health_risks`: the try/except boundary;
any internal exception is converted into the error envelope. -/
def predict (cfg : Config) (d : Record) : Envelope :=
  match predictExc cfg d with
  | .ok e => e
  | .error _ => errorPrediction

/-! ### OCR extraction service -/

/-- A character class of the OCR regular expressions. -/
inductive CharClass where
  | digit
  | space
  | colonSpace
  | dashSlash
  | chr (c : Char)
deriving DecidableEq

/-- Membership test of a character class. -/
def CharClass.test : CharClass → Char → Bool
  | .digit, c => c.isDigit
  | .space, c => c.isWhitespace
  | .colonSpace, c => (c == ':') || c.isWhitespace
  | .dashSlash, c => (c == '-') || (c == '/')
  | .chr x, c => c == x

/-- The fragment of regular expressions the OCR patterns use:
case-insensitive literals, greedy bounded repetition of a character
class, sequencing, prioritized alternation, and capture groups. -/
inductive RE where
  | lit (s : List Char)
  | cls (c : CharClass) (lo : ℕ) (hi : Option ℕ)
  | seq (a b : RE)
  | alt (a b : RE)
  | grp (r : RE)

/-- Case-insensitive character comparison (pattern literals are stored
lowercase). -/
def lowerEq (c p : Char) : Bool := c.toLower == p

/-- Match a case-insensitive literal at the head of the input,
returning the remaining input. -/
def matchLit : List Char → List Char → Option (List Char)
  | [], input => Option.some input
  | _ :: _, [] => Option.none
  | p :: ps, c :: cs => if lowerEq c p then matchLit ps cs else Option.none

/-- Length of the maximal run of class characters at the head of the
input. -/
def classRun (cl : CharClass) : List Char → ℕ
  | [] => 0
  | c :: cs => if cl.test c then classRun cl cs + 1 else 0

/-- All ways to match a regular expression at the head of the input, as
(captures, remaining input) pairs in backtracking priority order:
greedy repetition longest first, alternation left first. -/
def REmatch : RE → List Char → List (List (List Char) × List Char)
  | .lit p, input =>
      match matchLit p input with
      | Option.some rest => [([], rest)]
      | Option.none => []
  | .cls cl lo hi, input =>
      let m := match hi with
        | Option.some h => min h (classRun cl input)
        | Option.none => classRun cl input
      if m < lo then []
      else (List.range (m + 1 - lo)).map (fun i => ([], input.drop (m - i)))
  | .seq a b, input =>
      (REmatch a input).flatMap (fun pr =>
        (REmatch b pr.2).map (fun qr => (pr.1 ++ qr.1, qr.2)))
  | .alt a b, input => REmatch a input ++ REmatch b input
  | .grp r, input =>
      (REmatch r input).map (fun pr =>
        (pr.1 ++ [input.take (input.length - pr.2.length)], pr.2))

/-- Python `re.search`: try every start position left to right and
return the captures of the first (highest-priority) match. -/
def RESearch (r : RE) : List Char → Option (List (List Char))
  | [] =>
      match REmatch r [] with
      | pr :: _ => Option.some pr.1
      | [] => Option.none
  | c :: t =>
      match REmatch r (c :: t) with
      | pr :: _ => Option.some pr.1
      | [] => RESearch r t

/-- Sequence a list of regular expressions. -/
def reseq : List RE → RE
  | [] => .lit []
  | [x] => x
  | x :: xs => .seq x (reseq xs)

/-- Prioritized alternation of a list of regular expressions. -/
def realt : List RE → RE
  | [] => .lit []
  | [x] => x
  | x :: xs => .alt x (realt xs)

/-- A case-insensitive literal from a lowercase string. -/
def relit (s : String) : RE := .lit s.toList

/-- Pattern fragment for one or more whitespace characters. -/
def ws1 : RE := .cls .space 1 Option.none

/-- Pattern fragment for any run of whitespace characters. -/
def ws0 : RE := .cls .space 0 Option.none

/-- Pattern fragment for any run of colons and whitespace. -/
def colsp : RE := .cls .colonSpace 0 Option.none

/-- Pattern fragment for an optional decimal point. -/
def optDot : RE := .cls (.chr '.') 0 (Option.some 1)

/-- Capture group of lo to hi digits. -/
def digitGrp (lo hi : ℕ) : RE := .grp (.cls .digit lo (Option.some hi))

/-- Float capture group: lo to hi integer digits, an optional point, then any digits. -/
def floatGrp (lo : ℕ) (hi : Option ℕ) : RE :=
  .grp (reseq [.cls .digit lo hi, optDot, .cls .digit 0 Option.none])

/-- The composite blood-pressure pattern: BP or Blood Pressure, separator, a 2-3 digit capture, a slash, and a second 2-3 digit capture. -/
def bpRE : RE :=
  reseq [realt [relit (r"bp"), reseq [relit (r"blood"), ws1, relit (r"pressure")]],
         colsp, digitGrp 2 3, ws0, relit (r"/"), ws0, digitGrp 2 3]

/-- The systolic pattern: Systolic or SBP, separator, a 2-3 digit capture. -/
def systolicRE : RE :=
  reseq [realt [relit (r"systolic"), relit (r"sbp")], colsp, digitGrp 2 3]

/-- The diastolic pattern: Diastolic or DBP, separator, a 2-3 digit capture. -/
def diastolicRE : RE :=
  reseq [realt [relit (r"diastolic"), relit (r"dbp")], colsp, digitGrp 2 3]

/-- The glucose pattern: Glucose, FBS or Fasting Blood Sugar, separator, a 2-3 digit capture. -/
def glucoseRE : RE :=
  reseq [realt [relit (r"glucose"), relit (r"fbs"),
                reseq [relit (r"fasting"), ws1, relit (r"blood"), ws1, relit (r"sugar")]],
         colsp, digitGrp 2 3]

/-- The HbA1c pattern: HbA1c, A1C or Hemoglobin A1C, separator, a float capture. -/
def hba1cRE : RE :=
  reseq [realt [relit (r"hba1c"), relit (r"a1c"),
                reseq [relit (r"hemoglobin"), ws1, relit (r"a1c")]],
         colsp, floatGrp 1 Option.none]

/-- The total-cholesterol pattern: Total Cholesterol or TC, separator, a 2-3 digit capture. -/
def totalCholRE : RE :=
  reseq [realt [reseq [relit (r"total"), ws1, relit (r"cholesterol")], relit (r"tc")],
         colsp, digitGrp 2 3]

/-- The HDL pattern: HDL or HDL-C, separator, a 2-3 digit capture. -/
def hdlRE : RE :=
  reseq [realt [relit (r"hdl"), relit (r"hdl-c")], colsp, digitGrp 2 3]

/-- The LDL pattern: LDL or LDL-C, separator, a 2-3 digit capture. -/
def ldlRE : RE :=
  reseq [realt [relit (r"ldl"), relit (r"ldl-c")], colsp, digitGrp 2 3]

/-- The triglycerides pattern: Triglycerides or TG, separator, a 2-4 digit capture. -/
def trigRE : RE :=
  reseq [realt [relit (r"triglycerides"), relit (r"tg")], colsp, digitGrp 2 4]

/-- The heart-rate pattern: Heart Rate, HR or Pulse, separator, a 2-3 digit capture. -/
def heartRateRE : RE :=
  reseq [realt [reseq [relit (r"heart"), ws1, relit (r"rate")], relit (r"hr"),
                relit (r"pulse")],
         colsp, digitGrp 2 3]

/-- The temperature pattern: Temperature or Temp, separator, a 2-3 digit float capture. -/
def tempRE : RE :=
  reseq [realt [relit (r"temperature"), relit (r"temp")], colsp,
         floatGrp 2 (Option.some 3)]

/-- The creatinine pattern: Creatinine or Cr, separator, a float capture. -/
def creatRE : RE :=
  reseq [realt [relit (r"creatinine"), relit (r"cr")], colsp,
         floatGrp 1 Option.none]

/-- The hemoglobin pattern: Hemoglobin, Hb or Hgb, separator, a 1-2 digit float capture. -/
def hgbRE : RE :=
  reseq [realt [relit (r"hemoglobin"), relit (r"hb"), relit (r"hgb")], colsp,
         floatGrp 1 (Option.some 2)]

/-- The date pattern: one or two digits, a dash or slash, one or two digits, a dash or slash, then two to four digits, all one capture. -/
def dateRE : RE :=
  .grp (reseq [.cls .digit 1 (Option.some 2), .cls .dashSlash 1 (Option.some 1),
               .cls .digit 1 (Option.some 2), .cls .dashSlash 1 (Option.some 1),
               .cls .digit 2 (Option.some 4)])

/-- `MedicalReportExtractor.PATTERNS`, in dict insertion order. -/
def ocrPatterns : List (String × RE) :=
  [((r"blood_pressure"), bpRE), ((r"systolic_bp"), systolicRE),
   ((r"diastolic_bp"), diastolicRE), ((r"glucose"), glucoseRE),
   ((r"hba1c"), hba1cRE), ((r"total_cholesterol"), totalCholRE),
   ((r"hdl_cholesterol"), hdlRE), ((r"ldl_cholesterol"), ldlRE),
   ((r"triglycerides"), trigRE), ((r"heart_rate"), heartRateRE),
   ((r"temperature"), tempRE), ((r"creatinine"), creatRE),
   ((r"hemoglobin"), hgbRE), ((r"date"), dateRE)]

/-- `MedicalReportExtractor.get_units`. -/
def getUnits (f : String) : String :=
  (List.lookup f
    [((r"systolic_bp"), (r"mmHg")), ((r"diastolic_bp"), (r"mmHg")),
     ((r"fasting_glucose"), (r"mg/dL")), ((r"hba1c"), (r"%")),
     ((r"total_cholesterol"), (r"mg/dL")), ((r"hdl_cholesterol"), (r"mg/dL")),
     ((r"ldl_cholesterol"), (r"mg/dL")), ((r"triglycerides"), (r"mg/dL")),
     ((r"heart_rate"), (r"bpm")), ((r"temperature"), (r"°C")),
     ((r"creatinine"), (r"mg/dL")), ((r"hemoglobin"), (r"g/dL"))]).getD (r"")

/-- The fields whose captures are parsed with `float`; all others use
`int`. -/
def floatFields : List String :=
  [(r"hba1c"), (r"temperature"), (r"creatinine"), (r"hemoglobin")]

/-- `process_value` inside `parse_medical_data`: `float` for the float
fields, `int` otherwise; `None` on a parse failure. -/
def processValue (field valStr : String) : Option ℚ :=
  if floatFields.contains field then pyFloat valStr else pyInt valStr

/-- An extracted medical value with its metadata. -/
structure ExtractedField where
  value : ℚ
  units : String
  confidence : ℚ
  rawLine : String
  notes : Option String
deriving DecidableEq

/-- Floor of a rational number as an integer. -/
def ratFloorZ (q : ℚ) : ℤ := q.num.fdiv (q.den : ℤ)

/-- Python `round(q, n)`: round half to even at `n` decimal digits. -/
def pyRound (q : ℚ) (n : ℕ) : ℚ :=
  let s : ℚ := q * (10 : ℚ) ^ n
  let z : ℤ := ratFloorZ s
  let fr : ℚ := s - (z : ℚ)
  let rounded : ℤ :=
    if fr < 1 / 2 then z
    else if 1 / 2 < fr then z + 1
    else if z % 2 = 0 then z else z + 1
  (rounded : ℚ) / (10 : ℚ) ^ n

/-- The in-parse normalization of `parse_medical_data`: a temperature
above 50 is Fahrenheit and converted to Celsius rounded to one decimal;
an HbA1c above 15 is mis-scaled and divided by 10. -/
def normalizeValue (field : String) (v : ℚ) : ℚ :=
  if (field == (r"temperature")) && decide (50 < v) then
    pyRound ((v - 32) * 5 / 9) 1
  else if (field == (r"hba1c")) && decide (15 < v) then v / 10
  else v

/-- The stored field name: the `glucose` pattern is stored as
`fasting_glucose`. -/
def storeName (field : String) : String :=
  if field == (r"glucose") then (r"fasting_glucose") else field

/-- The entry stored for a field matched on a line with raw capture
value `v`. -/
def mkEntry (field line : String) (v : ℚ) : String × ExtractedField :=
  (storeName field,
   ⟨normalizeValue field v, getUnits (storeName field), 9 / 10, pyStrip line,
    Option.none⟩)

/-- The per-field line scan of `parse_medical_data`: skip blank lines,
return the first line whose pattern match yields a parseable capture. -/
def scanLines (field : String) (re : RE) : List String → Option (String × ℚ)
  | [] => Option.none
  | line :: rest =>
      if (stripChars line.toList).isEmpty then scanLines field re rest
      else
        match RESearch re line.toList with
        | Option.some (g1 :: _) =>
            match processValue field (String.mk g1) with
            | Option.some v => Option.some (line, v)
            | Option.none => scanLines field re rest
        | _ => scanLines field re rest

/-- Split a character list at newline characters (Python
`str.split('\n')`). -/
def splitOnNl : List Char → List (List Char)
  | [] => [[]]
  | c :: t =>
      let rest := splitOnNl t
      if c == '\n' then [] :: rest
      else
        match rest with
        | h :: t2 => (c :: h) :: t2
        | [] => [[c]]

/-- Python `text.split('\n')`. -/
def splitLinesStr (text : String) : List String :=
  (splitOnNl text.toList).map String.mk

/-- The main pattern loop of `parse_medical_data`: every pattern except
the composite blood-pressure one contributes at most one entry. -/
def parseMain (lines : List String) : List (String × ExtractedField) :=
  (ocrPatterns.filter (fun p => !(p.1 == (r"blood_pressure")))).filterMap
    (fun p => (scanLines p.1 p.2 lines).map (fun lv => mkEntry p.1 lv.1 lv.2))

/-- The composite blood-pressure scan: the first line matching the
composite pattern, with its two integer captures. -/
def scanBP : List String → Option (String × ℚ × ℚ)
  | [] => Option.none
  | line :: rest =>
      match RESearch bpRE line.toList with
      | Option.some (g1 :: g2 :: _) =>
          Option.some (line, (digitsToNat g1 : ℚ), (digitsToNat g2 : ℚ))
      | _ => scanBP rest

/-- A blood-pressure entry created by the composite pass. -/
def bpEntry (v : ℚ) (line : String) : ExtractedField :=
  ⟨v, r"mmHg", 9 / 10, pyStrip line, Option.none⟩

/-- `MedicalReportExtractor.parse_medical_data`: the per-field pattern
loop, then the composite blood-pressure pass that fills only the
missing systolic/diastolic entries. -/
def parseMedicalData (text : String) : List (String × ExtractedField) :=
  let lines := splitLinesStr text
  let data := parseMain lines
  if (List.lookup (r"systolic_bp") data).isNone
     || (List.lookup (r"diastolic_bp") data).isNone then
    match scanBP lines with
    | Option.none => data
    | Option.some (line, s, d2) =>
        data
          ++ (if (List.lookup (r"systolic_bp") data).isNone then
                [((r"systolic_bp"), bpEntry s line)] else [])
          ++ (if (List.lookup (r"diastolic_bp") data).isNone then
                [((r"diastolic_bp"), bpEntry d2 line)] else [])
  else data

/-- The plausible-range table of `validate_medical_values`. -/
def ocrRanges : List (String × (ℚ × ℚ)) :=
  [((r"systolic_bp"), (70, 250)), ((r"diastolic_bp"), (40, 150)),
   ((r"fasting_glucose"), (70, 500)), ((r"hba1c"), (4, 15)),
   ((r"total_cholesterol"), (100, 400)), ((r"hdl_cholesterol"), (20, 100)),
   ((r"ldl_cholesterol"), (50, 300)), ((r"triglycerides"), (50, 1000)),
   ((r"heart_rate"), (40, 200)), ((r"temperature"), (30, 45)),
   ((r"creatinine"), (3 / 10, 5)), ((r"hemoglobin"), (8, 20))]

/-- `validate_medical_values` on one entry: out-of-range values are
kept with confidence downgraded to 0.3 and an explanatory note. -/
def validateEntry (k : String) (f : ExtractedField) : ExtractedField :=
  match List.lookup k ocrRanges with
  | Option.none => f
  | Option.some mm =>
      if decide (mm.1 ≤ f.value) && decide (f.value ≤ mm.2) then f
      else { f with confidence := 3 / 10,
                    notes := Option.some (r"Value outside normal range") }

/-- A default field injected by `map_to_form_fields`. -/
def defaultEntry (v : ℚ) : ExtractedField :=
  ⟨v, r"", 1, r"Default value", Option.none⟩

/-- `MedicalReportExtractor.map_to_form_fields`: validate, then inject
the stress-level and sleep-hours defaults when missing. -/
def mapToFormFields (parsed : List (String × ExtractedField)) :
    List (String × ExtractedField) :=
  let valid := parsed.map (fun kv => (kv.1, validateEntry kv.1 kv.2))
  let valid := valid
    ++ (if (List.lookup (r"stress_level") valid).isNone then
          [((r"stress_level"), defaultEntry 5)] else [])
  valid
    ++ (if (List.lookup (r"sleep_hours") valid).isNone then
          [((r"sleep_hours"), defaultEntry 7)] else [])

/-- `MedicalReportExtractor.extract_and_parse` from the point where the
text-acquisition stage has produced `text` with OCR confidence
`ocrConfidence`: empty text is the terminal failure state; otherwise
parse, map to form fields, and blend OCR confidence (weight 0.4) with
the completeness score (weight 0.6) over the fields found, excluding
the two injected defaults, rounded to two decimals. -/
def extractAndParse (text : String) (ocrConfidence : ℚ) :
    List (String × ExtractedField) × ℚ :=
  if text == (r"") then ([], 0)
  else
    let parsed := parseMedicalData text
    let finalData := mapToFormFields parsed
    if finalData.isEmpty then (finalData, 0)
    else
      let fieldsFound : ℕ :=
        (finalData.filter (fun kv =>
          !(kv.1 == (r"stress_level")) && !(kv.1 == (r"sleep_hours")))).length
      let completeness := min ((fieldsFound : ℚ) / 12) 1
      (finalData, pyRound (ocrConfidence * 0.4 + completeness * 0.6) 2)

/-! ### Supplementary definitions used by the claim statements -/

/-- Values of the Python types (number, string, boolean) for which every
slot of `prepare_features` is defined. -/
def isTame : PyVal → Bool
  | .num _ => true
  | .str _ => true
  | .bool _ => true
  | _ => false

/-- A typed clinical profile covering every field the rule-based scorer
reads, together with its embedding as an assessment-data dictionary. -/
structure RuleProfile where
  age : ℚ
  sys : ℚ
  dia : ℚ
  chol : ℚ
  glucose : ℚ
  a1c : ℚ
  bmi : ℚ
  smoking : String
  famHist : String
  chestPain : Bool
  sob : Bool
  urination : Bool
  thirst : Bool

/-- The dictionary a `RuleProfile` denotes. -/
def RuleProfile.toRecord (p : RuleProfile) : Record :=
  [((r"age"), PyVal.num p.age), ((r"systolic_bp"), PyVal.num p.sys),
   ((r"diastolic_bp"), PyVal.num p.dia),
   ((r"total_cholesterol"), PyVal.num p.chol),
   ((r"fasting_glucose"), PyVal.num p.glucose),
   ((r"hba1c"), PyVal.num p.a1c), ((r"bmi"), PyVal.num p.bmi),
   ((r"smoking_status"), PyVal.str p.smoking),
   ((r"family_medical_history"), PyVal.str p.famHist),
   ((r"chest_pain"), PyVal.bool p.chestPain),
   ((r"shortness_of_breath"), PyVal.bool p.sob),
   ((r"frequent_urination"), PyVal.bool p.urination),
   ((r"excessive_thirst"), PyVal.bool p.thirst)]

/-- The heart-disease point system exactly as the spec words it:
age over 65 gives 15 else over 45 gives 8; systolic over 140 or
diastolic over 90 gives 20, else systolic over 130 or diastolic over 80
gives 10; cholesterol over 240 gives 15 else over 200 gives 8; current
smoking 25, former 10; chest pain or shortness of breath 20. -/
def specHeartPoints (p : RuleProfile) : ℚ :=
  (if 65 < p.age then 15 else if 45 < p.age then 8 else 0)
  + (if 140 < p.sys ∨ 90 < p.dia then 20
     else if 130 < p.sys ∨ 80 < p.dia then 10 else 0)
  + (if 240 < p.chol then 15 else if 200 < p.chol then 8 else 0)
  + (if p.smoking = (r"current") then 25
     else if p.smoking = (r"former") then 10 else 0)
  + (if p.chestPain ∨ p.sob then 20 else 0)

/-- The diabetes point system exactly as the spec words it: glucose
over 126 gives 30 else over 100 gives 15; HbA1c over 6.5 gives 25 else
over 5.7 gives 12; BMI over 30 gives 20 else over 25 gives 10; frequent
urination or excessive thirst gives 15. -/
def specDiabetesPoints (p : RuleProfile) : ℚ :=
  (if 126 < p.glucose then 30 else if 100 < p.glucose then 15 else 0)
  + (if 6.5 < p.a1c then 25 else if 5.7 < p.a1c then 12 else 0)
  + (if 30 < p.bmi then 20 else if 25 < p.bmi then 10 else 0)
  + (if p.urination ∨ p.thirst then 15 else 0)

/-- The cancer point system exactly as the spec words it: age over 60
gives 15 else over 40 gives 8; current smoking 35, former 15; a family
history of cancer or of multiple conditions gives 20. -/
def specCancerPoints (p : RuleProfile) : ℚ :=
  (if 60 < p.age then 15 else if 40 < p.age then 8 else 0)
  + (if p.smoking = (r"current") then 35
     else if p.smoking = (r"former") then 15 else 0)
  + (if p.famHist = (r"cancer") ∨ p.famHist = (r"multiple") then 20 else 0)

/-- The field names `parse_medical_data` can store. -/
def parseStoredNames : List String :=
  [(r"systolic_bp"), (r"diastolic_bp"), (r"fasting_glucose"), (r"hba1c"),
   (r"total_cholesterol"), (r"hdl_cholesterol"), (r"ldl_cholesterol"),
   (r"triglycerides"), (r"heart_rate"), (r"temperature"), (r"creatinine"),
   (r"hemoglobin"), (r"date")]

/-! ### Helper lemmas -/

lemma lookup_append {β : Type} (k : String) (a b : List (String × β)) :
    List.lookup k (a ++ b)
      = match List.lookup k a with
        | Option.some v => Option.some v
        | Option.none => List.lookup k b := by
  induction a with
  | nil => simp [List.lookup]
  | cons x t ih =>
      obtain ⟨k2, v2⟩ := x
      cases h : k == k2 with
      | true => simp [List.lookup, h]
      | false => simp [List.lookup, h, ih]

lemma lookup_append_some {β : Type} {k : String} {a : List (String × β)}
    (b : List (String × β)) {v : β} (h : List.lookup k a = Option.some v) :
    List.lookup k (a ++ b) = Option.some v := by
  rw [lookup_append, h]

lemma lookup_append_none {β : Type} {k : String} {a : List (String × β)}
    (b : List (String × β)) (h : List.lookup k a = Option.none) :
    List.lookup k (a ++ b) = List.lookup k b := by
  rw [lookup_append, h]

lemma lookup_none_of_keys {β : Type} {k : String} {l : List (String × β)}
    (h : ∀ kv ∈ l, (k == kv.1) = false) : List.lookup k l = Option.none := by
  induction l with
  | nil => rfl
  | cons x t ih =>
      obtain ⟨k2, v2⟩ := x
      have hx := h (k2, v2) (List.mem_cons_self _ _)
      simp only [List.lookup, hx]
      exact ih (fun kv hkv => h kv (List.mem_cons_of_mem _ hkv))

lemma mem_of_lookup {β : Type} {k : String} {l : List (String × β)} {v : β}
    (h : List.lookup k l = Option.some v) : (k, v) ∈ l := by
  induction l with
  | nil => cases h
  | cons x t ih =>
      obtain ⟨k2, v2⟩ := x
      cases hq : k == k2 with
      | true =>
          simp only [List.lookup, hq] at h
          obtain rfl : v2 = v := by injection h
          obtain rfl : k = k2 := by exact eq_of_beq hq
          exact List.mem_cons_self _ _
      | false =>
          simp only [List.lookup, hq] at h
          exact List.mem_cons_of_mem _ (ih h)

lemma lookup_map_entry {β : Type} (f : String → β → β) (k : String)
    (l : List (String × β)) :
    List.lookup k (l.map (fun kv => (kv.1, f kv.1 kv.2)))
      = Option.map (f k) (List.lookup k l) := by
  induction l with
  | nil => rfl
  | cons x t ih =>
      obtain ⟨k2, v2⟩ := x
      cases hq : k == k2 with
      | true =>
          obtain rfl : k = k2 := eq_of_beq hq
          simp [List.lookup, hq]
      | false => simp [List.lookup, hq, ih]

lemma numSlots_length :
    ∀ (fs : List String) (r : Record) (xs : List ℚ),
      numSlots fs r = .ok xs → xs.length = fs.length := by
  intro fs
  induction fs with
  | nil =>
      intro r xs h
      simp only [numSlots] at h
      obtain rfl : ([] : List ℚ) = xs := by injection h
      rfl
  | cons f t ih =>
      intro r xs h
      simp only [numSlots, bind, Except.bind] at h
      cases h1 : numericSlot (Record.getD r f (.num 0)) with
      | error e => rw [h1] at h; cases h
      | ok v =>
          rw [h1] at h
          cases h2 : numSlots t r with
          | error e => rw [h2] at h; cases h
          | ok tail =>
              rw [h2] at h
              obtain rfl : v :: tail = xs := by injection h
              simp [ih r tail h2]

/-! ### Claim theorems -/

/-- C1: `predict_health_risks` never raises to the caller: it is a total
function on arbitrary payloads, returning the try-block's envelope when
every internal step succeeds, and whenever any internal step (feature
preparation, scaling, inference, post-processing) raises, it returns the
fixed error-fallback envelope with all four risk scores 25.0, all four
categories moderate, confidence 0.5, method error-fallback, an empty
recommendations list, and the error flag set. -/
theorem predict_error_fallback (cfg : Config) (d : Record) :
    (∀ v, predictExc cfg d = Except.ok v → predict cfg d = v) ∧
    (∀ e, predictExc cfg d = Except.error e →
      predict cfg d =
        ⟨25, 25, 25, 25, r"moderate", r"moderate", r"moderate",
         r"moderate", 1 / 2, Option.some (r"error-fallback"),
         r"error-fallback", 0, [], [], true⟩) := by
  constructor
  · intro v h
    simp [predict, h]
  · intro e h
    simp only [predict, h]
    decide

/-- C1 witness: a garbage payload (a null age) makes an internal step
raise, and the call returns the error-fallback envelope. -/
theorem predict_error_fallback_witness :
    predictExc ⟨Option.none, Option.none, Option.none, 0⟩
        [((r"age"), PyVal.null)] = Except.error () ∧
    predict ⟨Option.none, Option.none, Option.none, 0⟩
        [((r"age"), PyVal.null)] =
      ⟨25, 25, 25, 25, r"moderate", r"moderate", r"moderate",
       r"moderate", 1 / 2, Option.some (r"error-fallback"),
       r"error-fallback", 0, [], [], true⟩ :=
  ⟨by decide, (predict_error_fallback _ _).2 () (by decide)⟩

/-- C4: `prepare_features` always returns a vector of exactly
16 + 5 + 9 = 30 entries (numeric slots first, then the five categorical
slots, then the nine binary slots, as encoded in its definition), and on
a record missing every field every slot defaults: numeric slots to 0,
categorical slots to ordinal 0, binary slots to 0. -/
theorem prepareFeatures_length_defaults :
    (∀ (r : Record) (xs : List ℚ), prepareFeatures r = .ok xs →
      xs.length = 30) ∧
    prepareFeatures [] = .ok (List.replicate 30 0) := by
  constructor
  · intro r xs h
    simp only [prepareFeatures, bind, Except.bind] at h
    cases h1 : numSlots numericFeatures r with
    | error e => rw [h1] at h; cases h
    | ok nums =>
    rw [h1] at h
    cases h2 : catSlot genderMap (Record.getD r (r"gender") (.str (r"none"))) with
    | error e => rw [h2] at h; cases h
    | ok g =>
    rw [h2] at h
    cases h3 : catSlot smokingMap (Record.getD r (r"smoking_status") (.str (r"none"))) with
    | error e => rw [h3] at h; cases h
    | ok sm =>
    rw [h3] at h
    cases h4 : catSlot alcoholMap (Record.getD r (r"alcohol_consumption") (.str (r"none"))) with
    | error e => rw [h4] at h; cases h
    | ok al =>
    rw [h4] at h
    cases h5 : catSlot exerciseMap (Record.getD r (r"exercise_level") (.str (r"none"))) with
    | error e => rw [h5] at h; cases h
    | ok ex =>
    rw [h5] at h
    obtain rfl :
        nums ++ [g, sm, al, ex,
          familySlot (Record.getD r (r"family_medical_history") (.dict []))]
          ++ binaryFeatures.map (fun f => binarySlot (Record.getD r f (.bool false)))
        = xs := by injection h
    have hn : nums.length = 16 := by
      have := numSlots_length numericFeatures r nums h1
      simpa [numericFeatures] using this
    simp [List.length_append, hn, binaryFeatures]
  · decide

/-- C4 witness: on the empty record the vector exists, has 30 entries,
and is all zeros. -/
theorem prepareFeatures_length_defaults_witness :
    prepareFeatures [] = .ok (List.replicate 30 0) ∧
    (List.replicate (30 : ℕ) (0 : ℚ)).length = 30 :=
  ⟨prepareFeatures_length_defaults.2,
   prepareFeatures_length_defaults.1 [] _ prepareFeatures_length_defaults.2⟩

/-- C5 counterexample: a record whose age slot holds `None` (a value of
a type other than number, string or boolean) makes `prepare_features`
raise a `TypeError` instead of degrading to the slot default: the
`float(value)` coercion is outside the `try` that guards only the
string-parse `ValueError`. -/
theorem prepareFeatures_null_raises :
    prepareFeatures [((r"age"), PyVal.null)] = .error () := by decide

/-- C5 amended: for every clinical record whose values are numbers,
strings or booleans, `prepare_features` raises no exception, and a
malformed textual value degrades to the slot default (0); values of
other types (None, dicts) in a numeric slot, or unhashable values in a
simple categorical slot, raise and are handled at the orchestrator
boundary instead. -/
theorem prepareFeatures_tame_total :
    (∀ r : Record, (∀ kv ∈ r, isTame kv.2 = true) →
      ∃ xs, prepareFeatures r = .ok xs) ∧
    prepareFeatures [((r"age"), PyVal.str (r"garbage"))]
      = .ok (List.replicate 30 0) := by
  constructor
  · intro r hr
    have hnum : ∀ f, ∃ v, numericSlot (Record.getD r f (.num 0)) = .ok v := by
      intro f
      unfold Record.getD
      cases hl : List.lookup f r with
      | none => exact ⟨0, rfl⟩
      | some v =>
          have hv := hr (f, v) (mem_of_lookup hl)
          cases v with
          | num q => exact ⟨q, rfl⟩
          | str s => exact ⟨_, rfl⟩
          | bool b => exact ⟨_, rfl⟩
          | dict l => simp [isTame] at hv
          | null => simp [isTame] at hv
    have hcat : ∀ (mapping : List (String × ℚ)) f,
        ∃ v, catSlot mapping (Record.getD r f (.str (r"none"))) = .ok v := by
      intro mapping f
      unfold Record.getD
      cases hl : List.lookup f r with
      | none => exact ⟨_, rfl⟩
      | some v =>
          have hv := hr (f, v) (mem_of_lookup hl)
          cases v with
          | num q => exact ⟨0, rfl⟩
          | str s => exact ⟨_, rfl⟩
          | bool b => exact ⟨0, rfl⟩
          | dict l => simp [isTame] at hv
          | null => simp [isTame] at hv
    have hnums : ∀ fs : List String, ∃ xs, numSlots fs r = .ok xs := by
      intro fs
      induction fs with
      | nil => exact ⟨[], rfl⟩
      | cons f t ih =>
          obtain ⟨v, hv⟩ := hnum f
          obtain ⟨tail, ht⟩ := ih
          exact ⟨v :: tail, by simp [numSlots, hv, ht, bind, Except.bind]⟩
    obtain ⟨nums, h1⟩ := hnums numericFeatures
    obtain ⟨g, h2⟩ := hcat genderMap (r"gender")
    obtain ⟨sm, h3⟩ := hcat smokingMap (r"smoking_status")
    obtain ⟨al, h4⟩ := hcat alcoholMap (r"alcohol_consumption")
    obtain ⟨ex, h5⟩ := hcat exerciseMap (r"exercise_level")
    exact ⟨nums ++ [g, sm, al, ex,
             familySlot (Record.getD r (r"family_medical_history") (.dict []))]
             ++ binaryFeatures.map (fun f => binarySlot (Record.getD r f (.bool false))),
           by simp [prepareFeatures, h1, h2, h3, h4, h5, bind, Except.bind]⟩
  · decide

/-- C5 amended witness: a record with a garbage numeric string and a
number stored in a categorical slot still encodes without raising. -/
theorem prepareFeatures_tame_total_witness :
    ∃ xs, prepareFeatures
      [((r"bmi"), PyVal.str (r"oops")), ((r"gender"), PyVal.num 3)]
        = .ok xs :=
  prepareFeatures_tame_total.1 _ (by decide)

/-- C6 counterexample: a cancer risk of 80 (at least 50, even at least
75) and a stroke risk of 56 produce no recommendation at all: the
generator only inspects the heart-disease and diabetes scores. -/
theorem recommendations_cancer_counterexample :
    generateRecommendations
        ⟨0, 0, 80, 56, 3 / 4, Option.some (r"rule-based")⟩ [] = .ok [] := by
  decide

/-- C6 amended: the recommendation generator emits condition records
for heart disease and diabetes only (the cancer and stroke scores do
not influence the output at all): for each of those two conditions with
score at least 50 it emits the condition's record with priority high
when the score is at least 75 and medium otherwise; additionally the
medium-priority weight-management record is emitted exactly when the
BMI comparison `bmi > 25` succeeds as true, and the high-priority
smoking-cessation record exactly when smoking status is current or
former. -/
theorem recommendations_characterization :
    ∀ (risks : BaseResults) (d : Record) (l : List Recommendation),
      generateRecommendations risks d = .ok l →
      (∀ c s conf meth,
        generateRecommendations ⟨risks.heart, risks.diabetes, c, s, conf, meth⟩ d
          = .ok l) ∧
      ((∃ p, cardioRec p ∈ l) ↔ 50 ≤ risks.heart) ∧
      (50 ≤ risks.heart →
        cardioRec (if 75 ≤ risks.heart then r"high" else r"medium") ∈ l) ∧
      ((∃ p, diabRec p ∈ l) ↔ 50 ≤ risks.diabetes) ∧
      (50 ≤ risks.diabetes →
        diabRec (if 75 ≤ risks.diabetes then r"high" else r"medium") ∈ l) ∧
      (weightRec ∈ l ↔ pyGT (Record.getD d (r"bmi") (.num 0)) 25 = .ok true) ∧
      (smokingRec ∈ l ↔
        (pyEqStr (Record.getN d (r"smoking_status")) (r"current")
          || pyEqStr (Record.getN d (r"smoking_status")) (r"former")) = true) ∧
      weightRec.priority = r"medium" ∧ smokingRec.priority = r"high" := by
  intro risks d l h
  have hins : ∀ c s conf meth,
      generateRecommendations ⟨risks.heart, risks.diabetes, c, s, conf, meth⟩ d
        = generateRecommendations risks d := fun _ _ _ _ => rfl
  have h0 := h
  simp only [generateRecommendations, bind, Except.bind] at h
  cases hb : pyGT (Record.getD d (r"bmi") (.num 0)) 25 with
  | error e => rw [hb] at h; cases h
  | ok b =>
  rw [hb] at h
  obtain rfl :
      ((if 50 ≤ risks.heart then
          [cardioRec (if 75 ≤ risks.heart then r"high" else r"medium")] else [])
        ++ (if 50 ≤ risks.diabetes then
          [diabRec (if 75 ≤ risks.diabetes then r"high" else r"medium")] else [])
        ++ (if b then [weightRec] else [])
        ++ (if pyEqStr (Record.getN d (r"smoking_status")) (r"current")
              || pyEqStr (Record.getN d (r"smoking_status")) (r"former")
            then [smokingRec] else [])) = l := by
    injection h
  refine ⟨fun c s conf meth => (hins c s conf meth).trans h0, ?_⟩
  by_cases hh : 50 ≤ risks.heart <;> by_cases hh75 : 75 ≤ risks.heart <;>
    by_cases hd : 50 ≤ risks.diabetes <;> by_cases hd75 : 75 ≤ risks.diabetes <;>
    cases b <;>
    cases hs : (pyEqStr (Record.getN d (r"smoking_status")) (r"current")
      || pyEqStr (Record.getN d (r"smoking_status")) (r"former")) <;>
    refine ⟨?_, ?_, ?_, ?_, ?_, ?_, rfl, rfl⟩ <;>
    simp [hh, hh75, hd, hd75, hs, hb, cardioRec, diabRec, weightRec,
      smokingRec, List.mem_append]

/-- C6 amended witness: with heart risk 80, diabetes risk 60, a BMI of
30 and current smoking, every branch fires: the cardiology record at
high priority, the diabetes record at medium, and both lifestyle
records. -/
theorem recommendations_characterization_witness :
    ∃ l, generateRecommendations ⟨80, 60, 0, 0, 3 / 4, Option.none⟩
        [((r"bmi"), PyVal.num 30), ((r"smoking_status"), PyVal.str (r"current"))]
        = .ok l
      ∧ cardioRec (r"high") ∈ l ∧ diabRec (r"medium") ∈ l
      ∧ weightRec ∈ l ∧ smokingRec ∈ l := by
  have hc := recommendations_characterization
    ⟨80, 60, 0, 0, 3 / 4, Option.none⟩
    [((r"bmi"), PyVal.num 30), ((r"smoking_status"), PyVal.str (r"current"))]
    [cardioRec (r"high"), diabRec (r"medium"), weightRec, smokingRec]
    (by decide)
  refine ⟨[cardioRec (r"high"), diabRec (r"medium"), weightRec, smokingRec],
    by decide, ?_, ?_, ?_, ?_⟩
  · have h1 := hc.2.2.1 (by decide)
    rwa [if_pos (show (75:ℚ) ≤ 80 by decide)] at h1
  · have h2 := hc.2.2.2.2.1 (by decide)
    rwa [if_neg (show ¬ (75:ℚ) ≤ 60 by decide)] at h2
  · exact hc.2.2.2.2.2.1.2 (by decide)
  · exact hc.2.2.2.2.2.2.1.2 (by decide)

lemma predictExc_clock (m : Option (List ℚ → Preds))
    (s : Option (List ℚ → List ℚ)) (v : Option String) (t : ℚ) (d : Record) :
    predictExc ⟨m, s, v, t⟩ d
      = Except.map (fun e => { e with timeMs := t })
          (predictExc ⟨m, s, v, 0⟩ d) := by
  simp only [predictExc, bind, Except.bind]
  cases h1 : prepareFeatures d with
  | error e => simp [Except.map]
  | ok fs =>
      cases m with
      | none =>
          cases h2 : ruleBasedPrediction d with
          | error e => simp [h2, Except.map]
          | ok base =>
              cases h3 : generateRecommendations base d with
              | error e => simp [h2, h3, Except.map]
              | ok recs =>
                  cases h4 : calculateFeatureImportance d with
                  | error e => simp [h2, h3, h4, Except.map]
                  | ok fi => simp [h2, h3, h4, Except.map]
      | some mf =>
          set base := modelResults (mf (match s with
            | Option.some sc => sc fs
            | Option.none => fs)) with hbase
          cases h3 : generateRecommendations base d with
          | error e => simp [h3, Except.map]
          | ok recs =>
              cases h4 : calculateFeatureImportance d with
              | error e => simp [h3, h4, Except.map]
              | ok fi => simp [h3, h4, Except.map]

/-- C7 amended: `predict_health_risks` is deterministic in every field
except the `prediction_time_ms` clock reading: two calls with an
identical record and an unchanged loaded artifact but different clock
observations agree once the time field is disregarded. -/
theorem predict_deterministic_except_time
    (m : Option (List ℚ → Preds)) (s : Option (List ℚ → List ℚ))
    (v : Option String) (t1 t2 : ℚ) (d : Record) :
    { predict ⟨m, s, v, t1⟩ d with timeMs := 0 }
      = { predict ⟨m, s, v, t2⟩ d with timeMs := 0 } := by
  unfold predict
  rw [predictExc_clock m s v t1 d, predictExc_clock m s v t2 d]
  cases predictExc ⟨m, s, v, 0⟩ d <;> rfl

/-- C7 counterexample: two calls on the same empty record with the same
(absent) artifact do not return identical envelopes when the clock the
host observes has advanced: the `prediction_time_ms` field differs. -/
theorem predict_not_identical_counterexample :
    predict ⟨Option.none, Option.none, Option.none, 0⟩ []
      ≠ predict ⟨Option.none, Option.none, Option.none, 1⟩ [] := by decide

lemma profile_age (p : RuleProfile) :
    Record.getD p.toRecord (r"age") (.num 0) = PyVal.num p.age := rfl

lemma profile_sys (p : RuleProfile) :
    Record.getD p.toRecord (r"systolic_bp") (.num 0) = PyVal.num p.sys := rfl

lemma profile_dia (p : RuleProfile) :
    Record.getD p.toRecord (r"diastolic_bp") (.num 0) = PyVal.num p.dia := rfl

lemma profile_chol (p : RuleProfile) :
    Record.getD p.toRecord (r"total_cholesterol") (.num 0)
      = PyVal.num p.chol := rfl

lemma profile_glucose (p : RuleProfile) :
    Record.getD p.toRecord (r"fasting_glucose") (.num 0)
      = PyVal.num p.glucose := rfl

lemma profile_a1c (p : RuleProfile) :
    Record.getD p.toRecord (r"hba1c") (.num 0) = PyVal.num p.a1c := rfl

lemma profile_bmi (p : RuleProfile) :
    Record.getD p.toRecord (r"bmi") (.num 0) = PyVal.num p.bmi := rfl

lemma profile_smoking (p : RuleProfile) :
    Record.getN p.toRecord (r"smoking_status") = PyVal.str p.smoking := rfl

lemma profile_fam (p : RuleProfile) :
    Record.getN p.toRecord (r"family_medical_history")
      = PyVal.str p.famHist := rfl

lemma profile_chestPain (p : RuleProfile) :
    Record.getN p.toRecord (r"chest_pain") = PyVal.bool p.chestPain := rfl

lemma profile_sob (p : RuleProfile) :
    Record.getN p.toRecord (r"shortness_of_breath") = PyVal.bool p.sob := rfl

lemma profile_urination (p : RuleProfile) :
    Record.getN p.toRecord (r"frequent_urination")
      = PyVal.bool p.urination := rfl

lemma profile_thirst (p : RuleProfile) :
    Record.getN p.toRecord (r"excessive_thirst") = PyVal.bool p.thirst := rfl

lemma hAge_profile (p : RuleProfile) :
    hAge p.toRecord
      = .ok (if 65 < p.age then (15:ℚ) else if 45 < p.age then 8 else 0) := by
  by_cases h1 : (65:ℚ) < p.age <;> by_cases h2 : (45:ℚ) < p.age <;>
    simp [hAge, pyGT, profile_age, bind, Except.bind, h1, h2]

lemma hBP_profile (p : RuleProfile) :
    hBP p.toRecord
      = .ok (if 140 < p.sys ∨ 90 < p.dia then (20:ℚ)
             else if 130 < p.sys ∨ 80 < p.dia then 10 else 0) := by
  by_cases a : (140:ℚ) < p.sys <;> by_cases b : (90:ℚ) < p.dia <;>
    by_cases c : (130:ℚ) < p.sys <;> by_cases e : (80:ℚ) < p.dia <;>
    simp [hBP, pyGT, profile_sys, profile_dia, bind, Except.bind, a, b, c, e]

lemma hChol_profile (p : RuleProfile) :
    hChol p.toRecord
      = .ok (if 240 < p.chol then (15:ℚ) else if 200 < p.chol then 8 else 0) := by
  by_cases h1 : (240:ℚ) < p.chol <;> by_cases h2 : (200:ℚ) < p.chol <;>
    simp [hChol, pyGT, profile_chol, bind, Except.bind, h1, h2]

lemma hSmoke_profile (p : RuleProfile) :
    hSmoke p.toRecord
      = (if p.smoking = (r"current") then (25:ℚ)
         else if p.smoking = (r"former") then 10 else 0) := by
  by_cases h1 : p.smoking = (r"current") <;> by_cases h2 : p.smoking = (r"former") <;>
    simp [hSmoke, pyEqStr, profile_smoking, h1, h2]

lemma hSymp_profile (p : RuleProfile) :
    hSymp p.toRecord = (if p.chestPain ∨ p.sob then (20:ℚ) else 0) := by
  cases hc : p.chestPain <;> cases hs : p.sob <;>
    simp [hSymp, truthy, profile_chestPain, profile_sob, hc, hs]

lemma heartPoints_profile (p : RuleProfile) :
    heartPoints p.toRecord = .ok (specHeartPoints p) := by
  simp [heartPoints, hAge_profile, hBP_profile, hChol_profile, hSmoke_profile,
    hSymp_profile, specHeartPoints, bind, Except.bind]

lemma dGlucose_profile (p : RuleProfile) :
    dGlucose p.toRecord
      = .ok (if 126 < p.glucose then (30:ℚ)
             else if 100 < p.glucose then 15 else 0) := by
  by_cases h1 : (126:ℚ) < p.glucose <;> by_cases h2 : (100:ℚ) < p.glucose <;>
    simp [dGlucose, pyGT, profile_glucose, bind, Except.bind, h1, h2]

lemma dHbA1c_profile (p : RuleProfile) :
    dHbA1c p.toRecord
      = .ok (if 6.5 < p.a1c then (25:ℚ) else if 5.7 < p.a1c then 12 else 0) := by
  by_cases h1 : (6.5:ℚ) < p.a1c <;> by_cases h2 : (5.7:ℚ) < p.a1c <;>
    simp [dHbA1c, pyGT, profile_a1c, bind, Except.bind, h1, h2]

lemma dBmi_profile (p : RuleProfile) :
    dBmi p.toRecord
      = .ok (if 30 < p.bmi then (20:ℚ) else if 25 < p.bmi then 10 else 0) := by
  by_cases h1 : (30:ℚ) < p.bmi <;> by_cases h2 : (25:ℚ) < p.bmi <;>
    simp [dBmi, pyGT, profile_bmi, bind, Except.bind, h1, h2]

lemma dSymp_profile (p : RuleProfile) :
    dSymp p.toRecord = (if p.urination ∨ p.thirst then (15:ℚ) else 0) := by
  cases hu : p.urination <;> cases ht : p.thirst <;>
    simp [dSymp, truthy, profile_urination, profile_thirst, hu, ht]

lemma diabetesPoints_profile (p : RuleProfile) :
    diabetesPoints p.toRecord = .ok (specDiabetesPoints p) := by
  simp [diabetesPoints, dGlucose_profile, dHbA1c_profile, dBmi_profile,
    dSymp_profile, specDiabetesPoints, bind, Except.bind]

lemma cAge_profile (p : RuleProfile) :
    cAge p.toRecord
      = .ok (if 60 < p.age then (15:ℚ) else if 40 < p.age then 8 else 0) := by
  by_cases h1 : (60:ℚ) < p.age <;> by_cases h2 : (40:ℚ) < p.age <;>
    simp [cAge, pyGT, profile_age, bind, Except.bind, h1, h2]

lemma cSmoke_profile (p : RuleProfile) :
    cSmoke p.toRecord
      = (if p.smoking = (r"current") then (35:ℚ)
         else if p.smoking = (r"former") then 15 else 0) := by
  by_cases h1 : p.smoking = (r"current") <;> by_cases h2 : p.smoking = (r"former") <;>
    simp [cSmoke, pyEqStr, profile_smoking, h1, h2]

lemma cFam_profile (p : RuleProfile) :
    cFam p.toRecord
      = (if p.famHist = (r"cancer") ∨ p.famHist = (r"multiple") then (20:ℚ)
         else 0) := by
  by_cases h1 : p.famHist = (r"cancer") <;> by_cases h2 : p.famHist = (r"multiple") <;>
    simp [cFam, pyEqStr, profile_fam, h1, h2]

lemma cancerPoints_profile (p : RuleProfile) :
    cancerPoints p.toRecord = .ok (specCancerPoints p) := by
  simp [cancerPoints, cAge_profile, cSmoke_profile, cFam_profile,
    specCancerPoints, bind, Except.bind]

/-- C2: on every typed clinical profile the fallback scorer computes
exactly the spec's additive point system per condition, capped at 100
via min; in particular the spec's two reference inputs score 95 for
heart disease and 75 for diabetes. -/
theorem ruleBased_additive_points :
    (∀ p : RuleProfile, ruleBasedPrediction p.toRecord
      = .ok ⟨min 100 (specHeartPoints p), min 100 (specDiabetesPoints p),
             min 100 (specCancerPoints p),
             min 100 (max (specHeartPoints p * 0.7) (specDiabetesPoints p * 0.6)),
             0.75, Option.some (r"rule-based")⟩) ∧
    Except.map BaseResults.heart (ruleBasedPrediction
      [((r"age"), PyVal.num 70), ((r"systolic_bp"), PyVal.num 150),
       ((r"diastolic_bp"), PyVal.num 95),
       ((r"total_cholesterol"), PyVal.num 250),
       ((r"smoking_status"), PyVal.str (r"current")),
       ((r"chest_pain"), PyVal.bool true)]) = .ok 95 ∧
    Except.map BaseResults.diabetes (ruleBasedPrediction
      [((r"fasting_glucose"), PyVal.num 130), ((r"hba1c"), PyVal.num 7),
       ((r"bmi"), PyVal.num 32)]) = .ok 75 := by
  refine ⟨?_, by decide, by decide⟩
  intro p
  simp [ruleBasedPrediction, heartPoints_profile, diabetesPoints_profile,
    cancerPoints_profile, bind, Except.bind]

lemma band2_mem {x y : Except Unit Bool} {a b v : ℚ}
    (h : (do
        if (← x) then Except.ok a
        else if (← y) then Except.ok b
        else Except.ok 0) = Except.ok v) :
    v = a ∨ v = b ∨ v = 0 := by
  rcases x with e | bx
  · simp [bind, Except.bind] at h
  · rcases bx with _ | _
    · rcases y with e | by2
      · simp [bind, Except.bind] at h
      · rcases by2 with _ | _
        · simp [bind, Except.bind] at h
          exact Or.inr (Or.inr h.symm)
        · simp [bind, Except.bind] at h
          exact Or.inr (Or.inl h.symm)
    · simp [bind, Except.bind] at h
      exact Or.inl h.symm

lemma band4_mem {x y z w : Except Unit Bool} {a b v : ℚ}
    (h : (do
        if (← x) then Except.ok a
        else if (← y) then Except.ok a
        else if (← z) then Except.ok b
        else if (← w) then Except.ok b
        else Except.ok 0) = Except.ok v) :
    v = a ∨ v = b ∨ v = 0 := by
  rcases x with e | bx
  · simp [bind, Except.bind] at h
  · rcases bx with _ | _
    · rcases y with e | by2
      · simp [bind, Except.bind] at h
      · rcases by2 with _ | _
        · rcases z with e | bz
          · simp [bind, Except.bind] at h
          · rcases bz with _ | _
            · rcases w with e | bw
              · simp [bind, Except.bind] at h
              · rcases bw with _ | _
                · simp [bind, Except.bind] at h
                  exact Or.inr (Or.inr h.symm)
                · simp [bind, Except.bind] at h
                  exact Or.inr (Or.inl h.symm)
            · simp [bind, Except.bind] at h
              exact Or.inr (Or.inl h.symm)
        · simp [bind, Except.bind] at h
          exact Or.inl h.symm
    · simp [bind, Except.bind] at h
      exact Or.inl h.symm

lemma hSmoke_bound (d : Record) : 0 ≤ hSmoke d ∧ hSmoke d ≤ 25 := by
  unfold hSmoke
  split_ifs <;> norm_num

lemma hSymp_bound (d : Record) : 0 ≤ hSymp d ∧ hSymp d ≤ 20 := by
  unfold hSymp
  split_ifs <;> norm_num

lemma dSymp_bound (d : Record) : 0 ≤ dSymp d ∧ dSymp d ≤ 15 := by
  unfold dSymp
  split_ifs <;> norm_num

lemma heartPoints_bound {d : Record} {h : ℚ}
    (hh : heartPoints d = .ok h) : 0 ≤ h ∧ h ≤ 95 := by
  unfold heartPoints at hh
  simp only [bind, Except.bind] at hh
  rcases ha : hAge d with e | a
  · rw [ha] at hh; cases hh
  · rw [ha] at hh
    rcases hb : hBP d with e | b
    · rw [hb] at hh; cases hh
    · rw [hb] at hh
      rcases hc : hChol d with e | c
      · rw [hc] at hh; cases hh
      · rw [hc] at hh
        obtain rfl : a + b + c + hSmoke d + hSymp d = h := by injection hh
        have m1 := band2_mem ha
        have m2 := band4_mem hb
        have m3 := band2_mem hc
        have m4 := hSmoke_bound d
        have m5 := hSymp_bound d
        rcases m1 with rfl | rfl | rfl <;> rcases m2 with rfl | rfl | rfl <;>
          rcases m3 with rfl | rfl | rfl <;>
          constructor <;> linarith [m4.1, m4.2, m5.1, m5.2]

lemma diabetesPoints_bound {d : Record} {h : ℚ}
    (hh : diabetesPoints d = .ok h) : 0 ≤ h ∧ h ≤ 90 := by
  unfold diabetesPoints at hh
  simp only [bind, Except.bind] at hh
  rcases ha : dGlucose d with e | a
  · rw [ha] at hh; cases hh
  · rw [ha] at hh
    rcases hb : dHbA1c d with e | b
    · rw [hb] at hh; cases hh
    · rw [hb] at hh
      rcases hc : dBmi d with e | c
      · rw [hc] at hh; cases hh
      · rw [hc] at hh
        obtain rfl : a + b + c + dSymp d = h := by injection hh
        have m1 := band2_mem ha
        have m2 := band2_mem hb
        have m3 := band2_mem hc
        have m4 := dSymp_bound d
        rcases m1 with rfl | rfl | rfl <;> rcases m2 with rfl | rfl | rfl <;>
          rcases m3 with rfl | rfl | rfl <;>
          constructor <;> linarith [m4.1, m4.2]

/-- C3: whenever the rule-based fallback scorer returns, the stroke
score in its result equals `max(heart * 0.7, diabetes * 0.6)` computed
from the (capped) heart-disease and diabetes scores of the same result:
the raw accumulators never exceed 95 and 90, so the caps are inert and
the derived stroke value is below 100. -/
theorem ruleBased_stroke_derived :
    ∀ (d : Record) (s : BaseResults), ruleBasedPrediction d = .ok s →
      s.stroke = max (s.heart * 0.7) (s.diabetes * 0.6) := by
  intro d s h
  unfold ruleBasedPrediction at h
  simp only [bind, Except.bind] at h
  rcases hh : heartPoints d with e | hp
  · rw [hh] at h; cases h
  · rw [hh] at h
    rcases hd : diabetesPoints d with e | dp
    · rw [hd] at h; cases h
    · rw [hd] at h
      rcases hc : cancerPoints d with e | cp
      · rw [hc] at h; cases h
      · rw [hc] at h
        obtain rfl : (⟨min 100 hp, min 100 dp, min 100 cp,
            min 100 (max (hp * 0.7) (dp * 0.6)), 0.75,
            Option.some (r"rule-based")⟩ : BaseResults) = s := by injection h
        obtain ⟨hp0, hp95⟩ := heartPoints_bound hh
        obtain ⟨dp0, dp90⟩ := diabetesPoints_bound hd
        have e1 : min (100:ℚ) hp = hp := min_eq_right (by linarith)
        have e2 : min (100:ℚ) dp = dp := min_eq_right (by linarith)
        have e3 : min (100:ℚ) (max (hp * 0.7) (dp * 0.6))
            = max (hp * 0.7) (dp * 0.6) :=
          min_eq_right (max_le (by linarith) (by linarith))
        simp only [e1, e2, e3]

/-- C3 witness: the spec's heart-disease reference input scores heart
95, diabetes 0, and stroke 66.5 = max(95 * 0.7, 0 * 0.6). -/
theorem ruleBased_stroke_derived_witness :
    ∃ s, ruleBasedPrediction
      [((r"age"), PyVal.num 70), ((r"systolic_bp"), PyVal.num 150),
       ((r"diastolic_bp"), PyVal.num 95),
       ((r"total_cholesterol"), PyVal.num 250),
       ((r"smoking_status"), PyVal.str (r"current")),
       ((r"chest_pain"), PyVal.bool true)] = .ok s
      ∧ s.stroke = max (s.heart * 0.7) (s.diabetes * 0.6) := by
  refine ⟨⟨95, 0, 50, 133 / 2, 0.75, Option.some (r"rule-based")⟩, by decide, ?_⟩
  exact ruleBased_stroke_derived
    [((r"age"), PyVal.num 70), ((r"systolic_bp"), PyVal.num 150),
     ((r"diastolic_bp"), PyVal.num 95),
     ((r"total_cholesterol"), PyVal.num 250),
     ((r"smoking_status"), PyVal.str (r"current")),
     ((r"chest_pain"), PyVal.bool true)] _ (by decide)

lemma mem_ite_singleton {α : Type} {c : Prop} [Decidable c] {x kv : α}
    (h : kv ∈ (if c then [x] else [])) : kv = x := by
  split at h
  · simpa using h
  · simp at h

lemma mem_parseMain {lines : List String} {kv : String × ExtractedField}
    (h : kv ∈ parseMain lines) : kv.1 ∈ parseStoredNames := by
  unfold parseMain at h
  rw [List.mem_filterMap] at h
  obtain ⟨p, hp, hg⟩ := h
  rw [List.mem_filter] at hp
  obtain ⟨hmem, hne⟩ := hp
  obtain ⟨lv, hscan, rfl⟩ := Option.map_eq_some'.mp hg
  show storeName p.1 ∈ parseStoredNames
  simp only [ocrPatterns, List.mem_cons, List.not_mem_nil, or_false] at hmem
  rcases hmem with rfl|rfl|rfl|rfl|rfl|rfl|rfl|rfl|rfl|rfl|rfl|rfl|rfl|rfl <;>
    first
      | decide
      | exact absurd hne (by decide)

lemma mem_parseMedicalData {text : String} {kv : String × ExtractedField}
    (h : kv ∈ parseMedicalData text) : kv.1 ∈ parseStoredNames := by
  simp only [parseMedicalData] at h
  split at h
  · split at h
    · exact mem_parseMain h
    · simp only [List.append_assoc, List.mem_append] at h
      rcases h with h | h | h
      · exact mem_parseMain h
      · obtain rfl := mem_ite_singleton h
        show (r"systolic_bp") ∈ parseStoredNames
        decide
      · obtain rfl := mem_ite_singleton h
        show (r"diastolic_bp") ∈ parseStoredNames
        decide
  · exact mem_parseMain h

lemma parse_lookup_none (k : String) (hk : k ∉ parseStoredNames)
    (text : String) :
    List.lookup k (parseMedicalData text) = Option.none := by
  apply lookup_none_of_keys
  intro kv hkv
  have h1 := mem_parseMedicalData hkv
  cases hq : k == kv.1 with
  | false => rfl
  | true => exact absurd (eq_of_beq hq ▸ h1) hk

/-- C8: the OCR parser's normalization rules: the matched temperature
value on the line `Temp: 98.6` exceeds 50 so it is converted by
`(v-32)*5/9` rounded to one decimal, giving 37.0 °C; the matched HbA1c
value on `HbA1c: 56` exceeds 15 so it is divided by 10, giving 5.6 %;
in general any matched temperature above 50 and any matched HbA1c above
15 are so normalized; and a `glucose` match is stored under the field
name `fasting_glucose` (nothing is ever stored under `glucose`). -/
theorem ocr_normalization :
    List.lookup (r"temperature") (parseMedicalData (r"Temp: 98.6"))
      = Option.some ⟨37, r"°C", 9 / 10, r"Temp: 98.6", Option.none⟩ ∧
    List.lookup (r"hba1c") (parseMedicalData (r"HbA1c: 56"))
      = Option.some ⟨28 / 5, r"%", 9 / 10, r"HbA1c: 56", Option.none⟩ ∧
    (∀ v : ℚ, 50 < v →
      normalizeValue (r"temperature") v = pyRound ((v - 32) * 5 / 9) 1) ∧
    (∀ v : ℚ, 15 < v → normalizeValue (r"hba1c") v = v / 10) ∧
    storeName (r"glucose") = (r"fasting_glucose") ∧
    (∀ text, List.lookup (r"glucose") (parseMedicalData text)
      = Option.none) ∧
    List.lookup (r"fasting_glucose") (parseMedicalData (r"Glucose: 130"))
      = Option.some ⟨130, r"mg/dL", 9 / 10, r"Glucose: 130", Option.none⟩ := by
  refine ⟨by decide, by decide, ?_, ?_, rfl, ?_, by decide⟩
  · intro v hv
    simp [normalizeValue, hv]
  · intro v hv
    simp [normalizeValue, hv]
  · intro text
    exact parse_lookup_none _ (by decide) text

/-- C8 witness: the normalization rules evaluated at the reference
values: 98.6 becomes 37.0, 56 becomes 5.6, and the parsed glucose line
stores nothing under `glucose`. -/
theorem ocr_normalization_witness :
    normalizeValue (r"temperature") (493 / 5) = 37 ∧
    normalizeValue (r"hba1c") 56 = 28 / 5 ∧
    List.lookup (r"glucose") (parseMedicalData (r"Glucose: 130"))
      = Option.none := by
  refine ⟨?_, ?_, ocr_normalization.2.2.2.2.2.1 (r"Glucose: 130")⟩
  · exact (ocr_normalization.2.2.1 (493 / 5) (by norm_num)).trans (by decide)
  · exact (ocr_normalization.2.2.2.1 56 (by norm_num)).trans (by decide)

/-- C9 counterexample: on a report whose first line matches the
independent systolic pattern with value 120 and whose second line
matches the composite blood-pressure pattern with values 145/95, the
stored systolic entry keeps the independent match's 120; the composite
match (which saw 145) did not take priority — it only filled the
missing diastolic entry. -/
theorem bp_composite_counterexample :
    List.lookup (r"systolic_bp") (parseMedicalData (r"Systolic: 120
BP: 145/95"))
      = Option.some ⟨120, r"mmHg", 9 / 10, r"Systolic: 120", Option.none⟩ ∧
    scanBP (splitLinesStr (r"Systolic: 120
BP: 145/95"))
      = Option.some ((r"BP: 145/95"), (145 : ℚ), (95 : ℚ)) ∧
    List.lookup (r"diastolic_bp") (parseMedicalData (r"Systolic: 120
BP: 145/95"))
      = Option.some ⟨95, r"mmHg", 9 / 10, r"BP: 145/95", Option.none⟩ := by
  refine ⟨by decide, by decide, by decide⟩

/-- C9 amended: blood pressure is parsed either by the two independent
systolic/diastolic patterns or by the composite pattern, with the
independent matches taking priority; the composite pass runs only when
an entry is missing and fills only the missing systolic/diastolic
entries; the line `Blood Pressure: 145/95` (matched by no independent
pattern) parses to systolic 145 and diastolic 95, each with unit mmHg
and confidence 0.9. -/
theorem bp_parse_amended :
    (∀ (text : String) (e : ExtractedField),
      List.lookup (r"systolic_bp") (parseMain (splitLinesStr text))
          = Option.some e →
      List.lookup (r"systolic_bp") (parseMedicalData text)
        = Option.some e) ∧
    (∀ (text : String) (e : ExtractedField),
      List.lookup (r"diastolic_bp") (parseMain (splitLinesStr text))
          = Option.some e →
      List.lookup (r"diastolic_bp") (parseMedicalData text)
        = Option.some e) ∧
    (∀ (text line : String) (sv dv : ℚ),
      List.lookup (r"systolic_bp") (parseMain (splitLinesStr text))
          = Option.none →
      scanBP (splitLinesStr text) = Option.some (line, sv, dv) →
      List.lookup (r"systolic_bp") (parseMedicalData text)
        = Option.some (bpEntry sv line)) ∧
    (∀ (text line : String) (sv dv : ℚ),
      List.lookup (r"diastolic_bp") (parseMain (splitLinesStr text))
          = Option.none →
      scanBP (splitLinesStr text) = Option.some (line, sv, dv) →
      List.lookup (r"diastolic_bp") (parseMedicalData text)
        = Option.some (bpEntry dv line)) ∧
    List.lookup (r"systolic_bp") (parseMedicalData (r"Blood Pressure: 145/95"))
      = Option.some ⟨145, r"mmHg", 9 / 10, r"Blood Pressure: 145/95",
          Option.none⟩ ∧
    List.lookup (r"diastolic_bp") (parseMedicalData (r"Blood Pressure: 145/95"))
      = Option.some ⟨95, r"mmHg", 9 / 10, r"Blood Pressure: 145/95",
          Option.none⟩ := by
  refine ⟨?_, ?_, ?_, ?_, by decide, by decide⟩
  · intro text e h
    simp only [parseMedicalData]
    split
    · split
      · exact h
      · exact lookup_append_some _ (lookup_append_some _ h)
    · exact h
  · intro text e h
    simp only [parseMedicalData]
    split
    · split
      · exact h
      · exact lookup_append_some _ (lookup_append_some _ h)
    · exact h
  · intro text line sv dv hmiss hscan
    simp only [parseMedicalData]
    rw [hscan]
    rw [if_pos]
    · dsimp only
      rw [List.append_assoc]
      rw [lookup_append_none _ hmiss]
      rw [if_pos (by simp [hmiss])]
      rfl
    · simp [hmiss]
  · intro text line sv dv hmiss hscan
    simp only [parseMedicalData]
    rw [hscan]
    rw [if_pos]
    · dsimp only
      rw [List.append_assoc]
      rw [lookup_append_none _ hmiss]
      rw [lookup_append]
      have h2 : List.lookup (r"diastolic_bp")
          (if (List.lookup (r"systolic_bp")
                (parseMain (splitLinesStr text))).isNone = true
           then [((r"systolic_bp"), bpEntry sv line)] else [])
          = Option.none := by
        split
        · simp [List.lookup]
        · rfl
      rw [h2]
      dsimp only
      rw [if_pos (by simp [hmiss])]
      simp [List.lookup]
    · simp [hmiss]

/-- C9 amended witness: on the single composite line the independent
patterns find nothing, the composite scan sees 145/95, and the theorem
fills both entries. -/
theorem bp_parse_amended_witness :
    List.lookup (r"systolic_bp") (parseMedicalData (r"BP: 145/95"))
      = Option.some (bpEntry 145 (r"BP: 145/95")) :=
  bp_parse_amended.2.2.1 (r"BP: 145/95") (r"BP: 145/95") 145 95
    (by decide) (by decide)

/-- C10: empty text is the zero-confidence failure state with an empty
map; for any non-empty acquired text `extract_and_parse` returns a map
that always contains the injected `stress_level` (5) and `sleep_hours`
(7.0) defaults at confidence 1.0 (they are never parsed from text), so
the map is non-empty, and the overall confidence blends the OCR
confidence (weight 0.4) with the completeness score of the fields found
excluding those two injected defaults (weight 0.6), rounded to two
decimals. -/
theorem extract_defaults_confidence :
    (∀ conf : ℚ, extractAndParse (r"") conf = ([], 0)) ∧
    (∀ (text : String) (conf : ℚ), ¬ text = (r"") →
      ∃ m, extractAndParse text conf
          = (m, pyRound (conf * 0.4
              + min (((m.filter (fun kv =>
                  !(kv.1 == (r"stress_level"))
                    && !(kv.1 == (r"sleep_hours")))).length : ℚ) / 12) 1
                * 0.6) 2)
        ∧ List.lookup (r"stress_level") m = Option.some (defaultEntry 5)
        ∧ List.lookup (r"sleep_hours") m = Option.some (defaultEntry 7)
        ∧ m ≠ []) := by
  constructor
  · intro conf
    rfl
  · intro text conf h
    have hne : (text == (r"")) = false := beq_eq_false_iff_ne.mpr h
    have hparsedStress :
        List.lookup (r"stress_level") (parseMedicalData text)
          = Option.none := parse_lookup_none _ (by decide) text
    have hparsedSleep :
        List.lookup (r"sleep_hours") (parseMedicalData text)
          = Option.none := parse_lookup_none _ (by decide) text
    have hvStress :
        List.lookup (r"stress_level")
          ((parseMedicalData text).map
            (fun kv => (kv.1, validateEntry kv.1 kv.2))) = Option.none := by
      rw [lookup_map_entry validateEntry, hparsedStress]
      rfl
    have hvSleep :
        List.lookup (r"sleep_hours")
          ((parseMedicalData text).map
            (fun kv => (kv.1, validateEntry kv.1 kv.2))) = Option.none := by
      rw [lookup_map_entry validateEntry, hparsedSleep]
      rfl
    have hm : mapToFormFields (parseMedicalData text)
        = ((parseMedicalData text).map
            (fun kv => (kv.1, validateEntry kv.1 kv.2))
            ++ [((r"stress_level"), defaultEntry 5)])
          ++ [((r"sleep_hours"), defaultEntry 7)] := by
      simp only [mapToFormFields]
      rw [if_pos (by rw [hvStress]; rfl)]
      rw [if_pos (by rw [lookup_append_none _ hvSleep]; simp [List.lookup])]
    have hstress :
        List.lookup (r"stress_level") (mapToFormFields (parseMedicalData text))
          = Option.some (defaultEntry 5) := by
      rw [hm]
      refine lookup_append_some _ ?_
      rw [lookup_append_none _ hvStress]
      simp [List.lookup]
    have hsleep :
        List.lookup (r"sleep_hours") (mapToFormFields (parseMedicalData text))
          = Option.some (defaultEntry 7) := by
      rw [hm]
      have : List.lookup (r"sleep_hours")
          ((parseMedicalData text).map
            (fun kv => (kv.1, validateEntry kv.1 kv.2))
            ++ [((r"stress_level"), defaultEntry 5)]) = Option.none := by
        rw [lookup_append_none _ hvSleep]
        simp [List.lookup]
      rw [lookup_append_none _ this]
      simp [List.lookup]
    refine ⟨mapToFormFields (parseMedicalData text), ?_, hstress, hsleep, ?_⟩
    · simp only [extractAndParse]
      rw [if_neg (by simp [hne])]
      rw [if_neg (fun habs => by
        rw [List.isEmpty_iff] at habs
        rw [habs] at hstress
        cases hstress)]
    · intro habs
      rw [habs] at hstress
      cases hstress

/-- C10 witness: on the non-empty text `Temp: 98.6` the extraction
returns a map containing both injected defaults and the blended
confidence formula. -/
theorem extract_defaults_confidence_witness :
    ∃ m, extractAndParse (r"Temp: 98.6") (1 / 2)
        = (m, pyRound ((1 / 2) * 0.4
            + min (((m.filter (fun kv =>
                !(kv.1 == (r"stress_level"))
                  && !(kv.1 == (r"sleep_hours")))).length : ℚ) / 12) 1
              * 0.6) 2)
      ∧ List.lookup (r"stress_level") m = Option.some (defaultEntry 5)
      ∧ List.lookup (r"sleep_hours") m = Option.some (defaultEntry 7)
      ∧ m ≠ [] :=
  extract_defaults_confidence.2 (r"Temp: 98.6") (1 / 2) (by decide)
